import Mathlib

/-!
Shallow embedding of the Masterpiece X Blender add-on's workflow core
(src/operators.py): the shared generation-status record, the
generate / cancel / poll / process-image / download operators, and the
filename sanitization helper.  Remote calls and the host environment are
modelled as explicit oracle records; machine floats are modelled as
rationals; Python `int(...)` truncation is modelled explicitly.
-/

/-- Result values returned by Blender operator entry points
(`FINISHED`, `CANCELLED`, `RUNNING_MODAL`, `PASS_THROUGH`). -/
inductive OpResult where
  | finished
  | cancelled
  | runningModal
  | passThrough
deriving DecidableEq

/-- A remote request issued by the workflow (the trace of outgoing calls). -/
inductive RemoteCall where
  | retrieve (id : String)
  | text2image (prompt : String) (numImages : Int) (numSteps : Int) (loraId : String)
  | assetsCreate (name : String) (mime : String)
  | putUpload (url : String)
  | imageto3d (assetId : String) (seed : Int) (textureSize : Int)
  | httpGet (url : String)
deriving DecidableEq

/-- The `progress` attribute of a remote status response: absent (or `None`),
present but not convertible by `float(...)`, or a numeric value. -/
inductive ProgVal where
  | absent
  | malformed
  | val (q : ℚ)
deriving DecidableEq

/-- A remote job status response (`client.status.retrieve`): its `status`
string, optional fractional progress, and the `outputs.images` /
`outputs.glb` payloads (empty list / `none` model the absent attribute). -/
structure StatusResponse where
  status : String
  progressVal : ProgVal
  images : List String
  glb : Option String
deriving DecidableEq

/-- The shared `generation_status` dictionary (src/operators.py lines 39-56),
field for field.  `client` is `true` when an API client instance is bound. -/
structure GenStatus where
  active : Bool
  status_text : String
  progress : Int
  current_step : String
  error : String
  client : Bool
  image_request_id : Option String
  image_url : Option String
  image_path : Option String
  model_request_id : Option String
  model_url : Option String
  model_path : Option String
  asset_request_id : Option String
  last_poll_time : Nat
  start_time : Nat
  active_threads : List Nat
deriving DecidableEq

/-- The initial value of `generation_status` at module load. -/
def initStatus : GenStatus :=
  ⟨false, "", 0, "", "", false, none, none, none, none, none, none, none, 0, 0, []⟩

/-- `MPXGEN_OT_GenerateModel._reset_generation_status`: every field blanked,
both timestamps set to the current time. -/
def resetStatus (now : Nat) : GenStatus :=
  ⟨false, "", 0, "", "", false, none, none, none, none, none, none, none, now, now, []⟩

/-- Python truthiness of an optional string field: truthy iff present and
non-empty (`if generation_status["image_request_id"]:`). -/
def optTruthy : Option String → Bool
  | none => false
  | some s => s ≠ ""

/-- The common failure path shared by every `_handle_error` in
src/operators.py: record the message and set `active` to false. -/
def failState (msg : String) (s : GenStatus) : GenStatus :=
  { s with error := msg, active := false }

/-- Python `min(a, b)` on two rationals (floats in the source). -/
def pyMin2 (a b : ℚ) : ℚ := if a ≤ b then a else b

/-- Python `min(a, b)` on two ints. -/
def pyMinInt (a b : Int) : Int := if a ≤ b then a else b

/-- Python `int(x)`: truncation toward zero. -/
def pyInt (q : ℚ) : Int := if 0 ≤ q then q.floor else q.ceil

/-- Whether the character list `needle` is a prefix of `hay`
(helper for Python's substring test `a in b`). -/
def startsWithChars : List Char → List Char → Bool
  | [], _ => true
  | _ :: _, [] => false
  | a :: as, b :: bs => a = b && startsWithChars as bs

/-- Python's substring containment `needle in hay` on character lists. -/
def hasSubChars (needle : List Char) : List Char → Bool
  | [] => startsWithChars needle []
  | c :: t => startsWithChars needle (c :: t) || hasSubChars needle t

/-- `str.lower()` restricted to ASCII letters (all characters outside
`[a-z0-9_.]` are stripped immediately afterwards in the source). -/
def lowerChar (c : Char) : Char :=
  if 'A' ≤ c ∧ c ≤ 'Z' then Char.ofNat (c.toNat + 32) else c

/-- `str.replace(' ', '_')` applied character-wise. -/
def spaceToUnderscore (c : Char) : Char := if c = ' ' then '_' else c

/-- Membership in the character class kept by `re.sub(r'[^a-z0-9_.]', '', s)`. -/
def allowedChar (c : Char) : Bool :=
  ('a' ≤ c ∧ c ≤ 'z') ∨ ('0' ≤ c ∧ c ≤ '9') ∨ c = '_' ∨ c = '.'

/-- Python `str.isalnum()` on the characters that can appear here (the
sanitized name only contains `[a-z0-9_.]`, on which `isalnum` agrees with
the ASCII test). -/
def isAlnumAscii (c : Char) : Bool :=
  ('a' ≤ c ∧ c ≤ 'z') ∨ ('A' ≤ c ∧ c ≤ 'Z') ∨ ('0' ≤ c ∧ c ≤ '9')

/-- Lower-case, replace spaces with underscores, then strip everything
outside `[a-z0-9_.]` (src/operators.py lines 966-970). -/
def strippedChars (name : List Char) : List Char :=
  ((name.map lowerChar).map spaceToUnderscore).filter allowedChar

/-- Python `s.split('.')[-1]`: the suffix after the last dot
(the whole string when there is no dot). -/
def lastDotComp (l : List Char) : List Char :=
  (l.reverse.takeWhile (fun c => c ≠ '.')).reverse

/-- Filename sanitization of `_start_image_based_generation`
(src/operators.py lines 964-973).  `ts` stands for `str(int(time.time()))`. -/
def sanitizeFilename (ts : String) (name : String) : String :=
  match strippedChars name.data with
  | [] =>
    String.mk (('m' :: 'p' :: 'x' :: '_' :: ts.data) ++
      '.' :: lastDotComp (strippedChars name.data))
  | c :: rest =>
    if isAlnumAscii c then String.mk (c :: rest)
    else
      String.mk (('m' :: 'p' :: 'x' :: '_' :: ts.data) ++
        '.' :: lastDotComp (strippedChars name.data))

/-- `os.path.basename` (POSIX): the part after the last `/`. -/
def baseName (path : String) : String :=
  String.mk ((path.data.reverse.takeWhile (fun c => c ≠ '/')).reverse)

/-- The extension part of `os.path.splitext` on a basename: from the last
dot, unless every character before that dot is itself a dot. -/
def splitextExtChars (b : List Char) : List Char :=
  let suf := (b.reverse.takeWhile (fun c => c ≠ '.')).reverse
  if suf.length = b.length then []
  else
    let pre := b.take (b.length - suf.length - 1)
    if pre.any (fun c => c ≠ '.') then '.' :: suf else []

/-- `MPXGEN_OT_GenerateModel._get_mime_type_from_extension`. -/
def mimeFromExt (path : String) : String :=
  let ext := String.mk ((splitextExtChars (baseName path).data).map lowerChar)
  if ext = ".jpg" then "image/jpeg"
  else if ext = ".jpeg" then "image/jpeg"
  else if ext = ".png" then "image/png"
  else if ext = ".bmp" then "image/bmp"
  else if ext = ".webp" then "image/webp"
  else "image/png"

/-- Elapsed-time string `f"{minutes}m {seconds}s"` of the poll tick. -/
def timeStr (elapsed : Nat) : String :=
  toString (elapsed / 60) ++ "m " ++ toString (elapsed % 60) ++ "s"

/-- The status-text refresh of the poll tick: when the text contains
"Generating", keep the part before the first `(` and append the elapsed
time (src/operators.py lines 335-336). -/
def tickText (txt : String) (elapsed : Nat) : String :=
  if hasSubChars "Generating".data txt.data then
    String.mk (txt.data.takeWhile (fun c => c ≠ '(')) ++ " (" ++ timeStr elapsed ++ ")"
  else txt

/-- `MPXGEN_OT_CancelGeneration.execute` (src/operators.py lines 254-283). -/
def cancelExecute (s : GenStatus) : GenStatus × OpResult :=
  if s.active = false then (s, .cancelled)
  else
    ({ s with
        active := false, status_text := "Generation cancelled",
        progress := 0, current_step := "", active_threads := [] },
     .finished)

/-- Input parameters of `MPXGEN_OT_GenerateModel`. -/
structure GenParams where
  prompt : String
  numSteps : Int
  textureSize : Int
  seed : Int
  fromImage : Bool
  imagePath : String
deriving DecidableEq

/-- Host / remote environment observed by one `MPXGEN_OT_GenerateModel.execute`
call: dependency availability, the stored API key (`none` when the
preferences record is absent), file existence, and the outcome of every
remote call this operator can issue (`Except.error` models a raised
exception). -/
structure GenEnv where
  sdkInstalled : Bool
  prefs : Option String
  fileExists : Bool
  clientOk : Bool
  clientErrMsg : String
  text2image : Except String String
  assetCreate : Except String (Option (String × String))
  putResult : Except String (Nat × String)
  imageto3d : Except String String
  now : Nat

/-- `MPXGEN_OT_GenerateModel._start_text_based_generation`
(src/operators.py lines 915-946), with the caller's
`except` wrapper (`_handle_error` on any raised exception). -/
def startTextBased (p : GenParams) (e : GenEnv) (s : GenStatus) :
    GenStatus × OpResult × List RemoteCall :=
  let s1 := { s with
      status_text := "Starting image generation...",
      progress := 10, current_step := "image" }
  match e.text2image with
  | .ok rid =>
    ({ s1 with
        image_request_id := some rid,
        status_text := "Generating image from text...", progress := 15 },
     .finished, [.text2image p.prompt 1 p.numSteps "mpx_game"])
  | .error err =>
    (failState ("Error initiating generation: Failed to start text-to-image generation: "
        ++ err) s1,
     .cancelled, [.text2image p.prompt 1 p.numSteps "mpx_game"])

/-- `MPXGEN_OT_GenerateModel._start_image_based_generation`
(src/operators.py lines 948-1059), with the caller's `except` wrapper.
The preferences re-read at line 998 sees the same store as the check in
`execute`, so the key is the `apiKey` already fetched there. -/
def startImageBased (p : GenParams) (e : GenEnv) (s : GenStatus) :
    GenStatus × OpResult × List RemoteCall :=
  let s1 := { s with status_text := "Preparing to upload image...", progress := 10 }
  let fname := baseName p.imagePath
  let mime := mimeFromExt p.imagePath
  let sname := sanitizeFilename (toString e.now) fname
  let s2 := { s1 with status_text := "Creating asset for image upload...", progress := 15 }
  match e.assetCreate with
  | .error err =>
    (failState ("Error initiating generation: Failed to process image: " ++ err) s2,
     .cancelled, [.assetsCreate sname mime])
  | .ok none =>
    (failState
       "Error initiating generation: Failed to process image: Invalid asset response from API"
       s2,
     .cancelled, [.assetsCreate sname mime])
  | .ok (some (aurl, arid)) =>
    let s3 := { s2 with
        asset_request_id := some arid,
        status_text := "Uploading image...", progress := 25 }
    match e.putResult with
    | .error err =>
      (failState
         ("Error initiating generation: Failed to process image: Network error while uploading image: "
           ++ err) s3,
       .cancelled, [.assetsCreate sname mime, .putUpload aurl])
    | .ok (code, body) =>
      if code ≠ 200 then
        let baseMsg := "Failed to upload image: " ++ body
        let msg := if hasSubChars "Invalid asset name".data body.data then
            baseMsg ++ " Please use an image with a simpler filename (letters, numbers, underscores only)."
          else baseMsg
        (failState ("Error initiating generation: Failed to process image: " ++ msg) s3,
         .cancelled, [.assetsCreate sname mime, .putUpload aurl])
      else
        let s4 := { s3 with status_text := "Starting 3D model generation...", progress := 40 }
        match e.imageto3d with
        | .ok mrid =>
          ({ s4 with
              model_request_id := some mrid, current_step := "model",
              status_text := "Generating 3D model from image...", progress := 45 },
           .finished,
           [.assetsCreate sname mime, .putUpload aurl, .imageto3d arid p.seed p.textureSize])
        | .error err =>
          let msg := if hasSubChars "Invalid asset".data err.data then
              "API rejected the image: " ++ err ++ ". Try a different image or format."
            else "Failed to start 3D model generation: " ++ err
          (failState ("Error initiating generation: Failed to process image: " ++ msg) s4,
           .cancelled,
           [.assetsCreate sname mime, .putUpload aurl, .imageto3d arid p.seed p.textureSize])

/-- `MPXGEN_OT_GenerateModel.execute` (src/operators.py lines 854-913):
dependency, API-key and input validation, the already-active rejection,
status reset, client binding, and dispatch to the chosen workflow. -/
def generateExecute (p : GenParams) (e : GenEnv) (s : GenStatus) :
    GenStatus × OpResult × List RemoteCall :=
  if e.sdkInstalled = false then (s, .cancelled, [])
  else
    match e.prefs with
    | none => (s, .cancelled, [])
    | some apiKey =>
      if apiKey = "" then (s, .cancelled, [])
      else if p.fromImage ∧ (p.imagePath = "" ∨ e.fileExists = false) then
        (s, .cancelled, [])
      else if p.fromImage = false ∧ p.prompt = "" then (s, .cancelled, [])
      else if s.active then (s, .cancelled, [])
      else
        let s1 := { (resetStatus e.now) with
            active := true, status_text := "Initializing...", progress := 5 }
        if e.clientOk = false then
          (failState ("Error initiating generation: " ++ e.clientErrMsg) s1,
           .cancelled, [])
        else
          let s2 := { s1 with client := true }
          if p.fromImage then startImageBased p e s2
          else startTextBased p e s2

/-- Environment of one `MPXGEN_OT_ProcessImage.execute` call: the status
retrieve for the finished image job, the image HTTP download, the temp
directory, the preferences record, and the upload / job-creation calls. -/
structure ProcessEnv where
  retrieveResult : Except String StatusResponse
  imgDownload : Except String Unit
  tmpDir : String
  prefs : Option String
  assetCreate : Except String (Option (String × String))
  putResult : Except String (Nat × String)
  imageto3d : Except String String
  seed : Int
  textureSize : Int

/-- `MPXGEN_OT_ProcessImage.execute` (src/operators.py lines 459-615) with
its `_download_image`, `_upload_image_as_asset` and
`_start_model_generation` helpers; every raised exception funnels into
`_handle_error` with the source's wrapped messages. -/
def processImageExecute (e : ProcessEnv) (s : GenStatus) :
    GenStatus × OpResult × List RemoteCall :=
  if optTruthy s.image_request_id = false then
    (failState "No image request ID available" s, .cancelled, [])
  else
    let rid := s.image_request_id.getD ""
    match e.retrieveResult with
    | .error err =>
      (failState ("Error in processing image: " ++ err) s, .cancelled, [.retrieve rid])
    | .ok resp =>
      if resp.images.isEmpty then
        (failState "No images were generated" s, .cancelled, [.retrieve rid])
      else
        let url := resp.images.headD ""
        let s1 := { s with
            image_url := some url,
            status_text := "Downloading generated image...", progress := 40 }
        match e.imgDownload with
        | .error err =>
          (failState ("Error in processing image: Failed to download image: " ++ err) s1,
           .cancelled, [.retrieve rid, .httpGet url])
        | .ok _ =>
          let ipath := e.tmpDir ++ "mpx_generated_image.png"
          let s2 := { s1 with
              image_path := some ipath,
              status_text := "Uploading image for 3D conversion...",
              progress := 50 }
          match e.prefs with
          | none =>
            (failState
               "Error in processing image: Failed to upload image as asset: API key not found in preferences"
               s2,
             .cancelled, [.retrieve rid, .httpGet url])
          | some _ =>
            match e.assetCreate with
            | .error err =>
              (failState
                 ("Error in processing image: Failed to upload image as asset: " ++ err) s2,
               .cancelled,
               [.retrieve rid, .httpGet url, .assetsCreate "blender_gen_image.png" "image/png"])
            | .ok none =>
              (failState
                 "Error in processing image: Failed to upload image as asset: Invalid asset response from API"
                 s2,
               .cancelled,
               [.retrieve rid, .httpGet url, .assetsCreate "blender_gen_image.png" "image/png"])
            | .ok (some (aurl, arid)) =>
              let s3 := { s2 with asset_request_id := some arid }
              match e.putResult with
              | .error err =>
                (failState
                   ("Error in processing image: Failed to upload image as asset: " ++ err) s3,
                 .cancelled,
                 [.retrieve rid, .httpGet url,
                  .assetsCreate "blender_gen_image.png" "image/png", .putUpload aurl])
              | .ok (code, body) =>
                if code ≠ 200 then
                  (failState
                     ("Error in processing image: Failed to upload image as asset: Failed to upload image: "
                       ++ body) s3,
                   .cancelled,
                   [.retrieve rid, .httpGet url,
                    .assetsCreate "blender_gen_image.png" "image/png", .putUpload aurl])
                else
                  let s4 := { s3 with
                      status_text := "Starting 3D model generation...",
                      progress := 60 }
                  match e.imageto3d with
                  | .error err =>
                    (failState
                       ("Error in processing image: Failed to start 3D model generation: "
                         ++ err) s4,
                     .cancelled,
                     [.retrieve rid, .httpGet url,
                      .assetsCreate "blender_gen_image.png" "image/png", .putUpload aurl,
                      .imageto3d arid e.seed e.textureSize])
                  | .ok mrid =>
                    ({ s4 with
                        model_request_id := some mrid, current_step := "model",
                        status_text := "Generating 3D model..." },
                     .finished,
                     [.retrieve rid, .httpGet url,
                      .assetsCreate "blender_gen_image.png" "image/png", .putUpload aurl,
                      .imageto3d arid e.seed e.textureSize])

/-- Environment of one `MPXGEN_OT_DownloadModel.execute` call: the identity
of the background thread it spawns. -/
structure DlStartEnv where
  tid : Nat

/-- `MPXGEN_OT_DownloadModel.execute` (src/operators.py lines 632-683):
spawn the background download thread and register it, or fail when no
model URL is recorded. -/
def downloadExecute (e : DlStartEnv) (s : GenStatus) :
    GenStatus × OpResult × List RemoteCall :=
  if optTruthy s.model_url then
    ({ s with
        status_text := "Downloading 3D model...", progress := 85,
        active_threads := s.active_threads ++ [e.tid] },
     .runningModal, [])
  else
    (failState "No model URL available" s, .cancelled, [])

/-- Completion flags the download thread hands to the modal callback. -/
structure DlThreadResult where
  downloadCompleted : Bool
  modelDownloaded : Bool
  downloadError : Option String
  glbPath : Option String
deriving DecidableEq

/-- `MPXGEN_OT_DownloadModel._download_model_thread`
(src/operators.py lines 685-708): fetch the binary, write it to the temp
path, record `model_path`, and set the completion flags. -/
def downloadThreadRun (fetch : Except String Unit) (tmpDir : String) (s : GenStatus) :
    GenStatus × DlThreadResult :=
  match fetch with
  | .ok _ =>
    let p := tmpDir ++ "mpx_generated_model.glb"
    ({ s with model_path := some p }, ⟨true, true, none, some p⟩)
  | .error err => (s, ⟨true, false, some err, none⟩)

/-- Environment of one `MPXGEN_OT_DownloadModel.modal` tick: the event kind,
the thread's completion flags, availability of the host glTF importer, the
outcome of the import call, and the thread handle to unregister. -/
structure DlModalEnv where
  isTimer : Bool
  completed : Bool
  downloadError : Option String
  modelDownloaded : Bool
  glbPath : Option String
  gltfAvailable : Bool
  importResult : Except String Unit
  tid : Nat

/-- `MPXGEN_OT_DownloadModel.modal` (src/operators.py lines 710-791).  The
third component is the file path the glTF import was invoked with, when it
was invoked. -/
def downloadModalTick (e : DlModalEnv) (s : GenStatus) :
    GenStatus × OpResult × Option String :=
  if e.isTimer = false then (s, .passThrough, none)
  else if e.completed = false then (s, .passThrough, none)
  else
    let s1 := { s with active_threads := s.active_threads.erase e.tid }
    match e.downloadError with
    | some err =>
      (failState ("Error downloading model: " ++ err) s1, .cancelled, none)
    | none =>
      if e.modelDownloaded ∧ optTruthy e.glbPath then
        let p := e.glbPath.getD ""
        let s2 := { s1 with status_text := "Importing 3D model...", progress := 90 }
        if e.gltfAvailable then
          match e.importResult with
          | .ok _ =>
            ({ s2 with
                status_text := "Model imported successfully!",
                progress := 100, active := false },
             .finished, some p)
          | .error err =>
            (failState ("Error importing model: " ++ err) s2, .cancelled, some p)
        else
          (failState
             "GLTF importer is not available. Please enable the \x27Import-Export: glTF 2.0 format\x27 addon."
             s2,
           .cancelled, none)
      else (s1, .passThrough, none)

/-- Environment of one `MPXGEN_OT_PollStatus.modal` tick: the event kind,
the clock, the outcome of the status retrieve this tick performs, and the
environments of the operators a completed phase chains into. -/
structure PollEnv where
  isTimer : Bool
  now : Nat
  retrieveResult : Except String StatusResponse
  proc : ProcessEnv
  dl : DlStartEnv

/-- `MPXGEN_OT_PollStatus._check_image_status` (src/operators.py lines
353-370); a completed image phase chains into `MPXGEN_OT_ProcessImage`. -/
def checkImageStatus (e : PollEnv) (s : GenStatus) : GenStatus × List RemoteCall :=
  let rid := s.image_request_id.getD ""
  match e.retrieveResult with
  | .error err => (failState ("Error checking image status: " ++ err) s, [.retrieve rid])
  | .ok resp =>
    if resp.status = "complete" then
      let s1 := { s with
          progress := 35, status_text := "Image generated successfully!",
          current_step := "process_image" }
      let r := processImageExecute e.proc s1
      (r.1, .retrieve rid :: r.2.2)
    else if resp.status = "failed" then
      (failState "Image generation failed" s, [.retrieve rid])
    else (s, [.retrieve rid])

/-- The progress mapping of `_check_model_status` (src/operators.py lines
378-400): scale the remote fractional progress into the range reserved for
the current workflow, falling back to the midpoint when `float(...)`
fails.  Note the source caps the value above with `min(1.0, ...)` but has
no lower bound. -/
def modelProgressApply (pv : ProgVal) (s : GenStatus) : GenStatus :=
  match pv with
  | .absent => s
  | .malformed =>
    if optTruthy s.asset_request_id ∧ optTruthy s.image_request_id = false then
      { s with progress := 60 }
    else { s with progress := 70 }
  | .val q =>
    if optTruthy s.asset_request_id ∧ optTruthy s.image_request_id = false then
      { s with progress := pyMinInt 80 (45 + pyInt (pyMin2 1 q * 35)) }
    else
      { s with progress := pyMinInt 80 (60 + pyInt (pyMin2 1 q * 20)) }

/-- `MPXGEN_OT_PollStatus._check_model_status` (src/operators.py lines
372-421); a completed model phase records the GLB URL and chains into
`MPXGEN_OT_DownloadModel.execute`. -/
def checkModelStatus (e : PollEnv) (s : GenStatus) : GenStatus × List RemoteCall :=
  let rid := s.model_request_id.getD ""
  match e.retrieveResult with
  | .error err => (failState ("Error checking model status: " ++ err) s, [.retrieve rid])
  | .ok resp =>
    let s1 := modelProgressApply resp.progressVal s
    if resp.status = "complete" then
      let s2 := { s1 with
          progress := 80,
          status_text := "3D model generated successfully!",
          current_step := "download_model" }
      if optTruthy resp.glb then
        let s3 := { s2 with model_url := some (resp.glb.getD "") }
        let r := downloadExecute e.dl s3
        (r.1, [.retrieve rid])
      else (failState "No GLB model was generated" s2, [.retrieve rid])
    else if resp.status = "failed" then
      (failState "3D model generation failed" s1, [.retrieve rid])
    else (s1, [.retrieve rid])

/-- `MPXGEN_OT_PollStatus.modal` (src/operators.py lines 303-351): terminate
when no run is active, otherwise on a timer event poll at most every three
seconds and dispatch on the current step. -/
def pollTick (e : PollEnv) (s : GenStatus) : GenStatus × OpResult × List RemoteCall :=
  if s.active = false then (s, .cancelled, [])
  else if e.isTimer = false then (s, .passThrough, [])
  else if 3 ≤ e.now - s.last_poll_time then
    let s1 := { s with
        last_poll_time := e.now,
        status_text := tickText s.status_text (e.now - s.start_time) }
    if s1.current_step = "image" ∧ optTruthy s1.image_request_id then
      let r := checkImageStatus e s1
      (r.1, .passThrough, r.2)
    else if s1.current_step = "model" ∧ optTruthy s1.model_request_id then
      let r := checkModelStatus e s1
      (r.1, .passThrough, r.2)
    else (s1, .passThrough, [])
  else (s, .passThrough, [])

/-- States of the shared record reachable from the module-load state by any
interleaving of the controller, poller, image-processing and downloader
operations (and the cancel operator), under arbitrary environments. -/
inductive Reachable : GenStatus → Prop where
  | init : Reachable initStatus
  | generate (p : GenParams) (e : GenEnv) (s : GenStatus) :
      Reachable s → Reachable (generateExecute p e s).1
  | cancel (s : GenStatus) : Reachable s → Reachable (cancelExecute s).1
  | poll (e : PollEnv) (s : GenStatus) : Reachable s → Reachable (pollTick e s).1
  | procImg (e : ProcessEnv) (s : GenStatus) :
      Reachable s → Reachable (processImageExecute e s).1
  | dlStart (e : DlStartEnv) (s : GenStatus) :
      Reachable s → Reachable (downloadExecute e s).1
  | dlThread (fetch : Except String Unit) (tmpDir : String) (s : GenStatus) :
      Reachable s → Reachable (downloadThreadRun fetch tmpDir s).1
  | dlModal (e : DlModalEnv) (s : GenStatus) :
      Reachable s → Reachable (downloadModalTick e s).1

/-- A sample in-progress remote status response used to instantiate theorems. -/
def sampleResp : StatusResponse := ⟨"processing", ProgVal.absent, [], none⟩

/-- A sample process-image environment used to instantiate theorems. -/
def sampleProcEnv : ProcessEnv :=
  ⟨Except.ok sampleResp, Except.ok (), "/tmp/", some "key", Except.ok none,
   Except.ok (200, ""), Except.ok "mid", 1, 1024⟩

/-- A sample poll environment (timer event at time 100) used to instantiate
theorems; its retrieve result is the given response. -/
def samplePollEnv (r : Except String StatusResponse) : PollEnv :=
  ⟨true, 100, r, sampleProcEnv, ⟨7⟩⟩

/-- A sample generate environment with every remote call succeeding. -/
def sampleGenEnv : GenEnv :=
  ⟨true, some "key", true, true, "", Except.ok "rid", Except.ok (some ("u", "aid")),
   Except.ok (200, ""), Except.ok "mid", 0⟩

/-- A sample mid-run state polling the model phase; `img` is the recorded
text-to-image request id (`none` in a direct image-to-3D run). -/
def sampleModelState (img : Option String) : GenStatus :=
  { initStatus with
    active := true, current_step := "model",
    model_request_id := some "mid", asset_request_id := some "aid",
    image_request_id := img }

/-- Whether a status retrieve ended the run: a raised transport error or a
response whose status is `"failed"`. -/
def failedOrErr : Except String StatusResponse → Bool
  | .error _ => true
  | .ok r => r.status = "failed"

/-- A sample mid-run state polling the image phase of a text run. -/
def sampleImageState : GenStatus :=
  { initStatus with
    active := true, current_step := "image", image_request_id := some "rid" }

/-- The terminal-on-error invariant: a non-empty error text implies the run
is no longer active. -/
def ErrInv (s : GenStatus) : Prop := s.error ≠ "" → s.active = false

/-- A sample generate environment whose client construction raises. -/
def sampleFailGenEnv : GenEnv :=
  ⟨true, some "key", true, false, "boom", Except.ok "rid", Except.ok none,
   Except.ok (200, ""), Except.ok "mid", 0⟩

/-! ### Helper lemmas -/

theorem str_append_ne_empty (a b : String) (h : a ≠ "") : a ++ b ≠ "" := by
  intro hc
  apply h
  have hl := congrArg String.length hc
  rw [String.length_append] at hl
  have he : ("" : String).length = 0 := rfl
  have ha : a.length = a.data.length := rfl
  have h0 : a.data.length = 0 := by omega
  exact String.ext (by simpa using List.length_eq_zero.mp h0)

/-! ### C1: starting while a run is active is rejected without mutation -/

/-- C1: if a generation run is already active, `MPXGEN_OT_GenerateModel.execute`
returns a cancelled result for any parameters and environment, issues no
remote call, and leaves every field of the shared generation-status record
unchanged. -/
theorem generate_rejected_when_active (p : GenParams) (e : GenEnv) (s : GenStatus)
    (h : s.active = true) :
    generateExecute p e s = (s, OpResult.cancelled, []) := by
  unfold generateExecute
  repeat' split <;> simp_all

/-- Witness for C1 at a concrete active state and concrete parameters. -/
theorem generate_rejected_when_active_witness :
    ({ initStatus with active := true } : GenStatus).active = true ∧
    generateExecute (⟨"a cat", 4, 1024, 1, false, ""⟩ : GenParams) sampleGenEnv
      { initStatus with active := true } =
      ({ initStatus with active := true }, OpResult.cancelled, []) :=
  ⟨rfl, generate_rejected_when_active _ _ _ rfl⟩

/-! ### C10: cancelling with no active run is a rejected no-op -/

/-- C10: invoking `MPXGEN_OT_CancelGeneration.execute` when no run is active
returns a cancelled result and mutates no field of the generation-status
record. -/
theorem cancel_inactive_noop (s : GenStatus) (h : s.active = false) :
    cancelExecute s = (s, OpResult.cancelled) := by
  unfold cancelExecute
  simp [h]

/-- Witness for C10 at the initial state. -/
theorem cancel_inactive_noop_witness :
    initStatus.active = false ∧ cancelExecute initStatus = (initStatus, OpResult.cancelled) :=
  ⟨rfl, cancel_inactive_noop _ rfl⟩

/-! ### C7: cancelling mid-run stops the poller cleanly -/

/-- C7: cancelling while a run is active immediately sets `active := false`,
resets the progress to 0 and the step to the none phase, drops the worker
references, records no error, and any subsequent poll tick terminates with
a cancelled result without issuing a remote call. -/
theorem cancel_then_poll_terminates (s : GenStatus) (e : PollEnv) (h : s.active = true) :
    (cancelExecute s).2 = OpResult.finished ∧
    (cancelExecute s).1.active = false ∧
    (cancelExecute s).1.progress = 0 ∧
    (cancelExecute s).1.current_step = "" ∧
    (cancelExecute s).1.error = s.error ∧
    (cancelExecute s).1.active_threads = [] ∧
    pollTick e (cancelExecute s).1 = ((cancelExecute s).1, OpResult.cancelled, []) := by
  unfold cancelExecute
  simp [h, pollTick]

/-- Witness for C7 at a concrete mid-run state and poll environment. -/
theorem cancel_then_poll_terminates_witness :
    ({ initStatus with active := true } : GenStatus).active = true ∧
    (cancelExecute { initStatus with active := true }).1.active = false ∧
    pollTick (samplePollEnv (Except.ok sampleResp))
        (cancelExecute { initStatus with active := true }).1 =
      ((cancelExecute { initStatus with active := true }).1, OpResult.cancelled, []) :=
  ⟨rfl,
   (cancel_then_poll_terminates _ (samplePollEnv (Except.ok sampleResp)) rfl).2.1,
   (cancel_then_poll_terminates _ (samplePollEnv (Except.ok sampleResp)) rfl).2.2.2.2.2.2⟩

/-! ### C2: a valid text-mode start issues exactly one image job -/

/-- C2: for every valid text-mode input (non-empty prompt, SDK available,
non-empty API key) with no run active, `MPXGEN_OT_GenerateModel.execute`
sets `active := true`, issues exactly one text-to-image remote request,
records its request id in `image_request_id`, finishes, and sets the
current step to the image phase. -/
theorem generate_text_starts_run (p : GenParams) (e : GenEnv) (s : GenStatus)
    (rid k : String)
    (hsdk : e.sdkInstalled = true) (hk : e.prefs = some k) (hkne : k ≠ "")
    (himg : p.fromImage = false) (hprompt : p.prompt ≠ "")
    (hact : s.active = false) (hcl : e.clientOk = true)
    (ht2i : e.text2image = Except.ok rid) :
    (generateExecute p e s).1.active = true ∧
    (generateExecute p e s).1.image_request_id = some rid ∧
    (generateExecute p e s).1.current_step = "image" ∧
    (generateExecute p e s).2.1 = OpResult.finished ∧
    (generateExecute p e s).2.2 = [RemoteCall.text2image p.prompt 1 p.numSteps "mpx_game"] := by
  simp [generateExecute, hsdk, hk, hkne, himg, hprompt, hact, hcl, startTextBased, ht2i]

/-- Witness for C2 at a concrete prompt, environment and the initial state. -/
theorem generate_text_starts_run_witness :
    sampleGenEnv.sdkInstalled = true ∧ sampleGenEnv.prefs = some "key" ∧
    ("key" : String) ≠ "" ∧ initStatus.active = false ∧
    sampleGenEnv.text2image = Except.ok "rid" ∧
    (generateExecute (⟨"a cat", 4, 1024, 1, false, ""⟩ : GenParams) sampleGenEnv
        initStatus).1.active = true ∧
    (generateExecute (⟨"a cat", 4, 1024, 1, false, ""⟩ : GenParams) sampleGenEnv
        initStatus).1.image_request_id = some "rid" ∧
    (generateExecute (⟨"a cat", 4, 1024, 1, false, ""⟩ : GenParams) sampleGenEnv
        initStatus).1.current_step = "image" ∧
    (generateExecute (⟨"a cat", 4, 1024, 1, false, ""⟩ : GenParams) sampleGenEnv
        initStatus).2.2 = [RemoteCall.text2image "a cat" 1 4 "mpx_game"] := by
  refine ⟨rfl, rfl, by decide, rfl, rfl, ?_, ?_, ?_, ?_⟩
  · exact (generate_text_starts_run _ _ _ "rid" "key" rfl rfl (by decide) rfl
      (by decide) rfl rfl rfl).1
  · exact (generate_text_starts_run _ _ _ "rid" "key" rfl rfl (by decide) rfl
      (by decide) rfl rfl rfl).2.1
  · exact (generate_text_starts_run _ _ _ "rid" "key" rfl rfl (by decide) rfl
      (by decide) rfl rfl rfl).2.2.1
  · exact (generate_text_starts_run _ _ _ "rid" "key" rfl rfl (by decide) rfl
      (by decide) rfl rfl rfl).2.2.2.2

/-! ### C3: filename sanitization -/

theorem mem_strippedChars_allowed {c : Char} {name : List Char}
    (h : c ∈ strippedChars name) : allowedChar c = true := by
  unfold strippedChars at h
  exact (List.mem_filter.mp h).2

theorem mem_lastDotComp {c : Char} {l : List Char} (h : c ∈ lastDotComp l) : c ∈ l := by
  unfold lastDotComp at h
  rw [List.mem_reverse] at h
  exact List.mem_reverse.mp ((List.takeWhile_prefix _).subset h)

theorem allowedChar_of_digit {c : Char} (h : '0' ≤ c ∧ c ≤ '9') :
    allowedChar c = true := by
  simp only [allowedChar, decide_eq_true_eq]
  exact Or.inr (Or.inl h)

theorem fallback_allowed (ts st : List Char) (hts : ∀ c ∈ ts, '0' ≤ c ∧ c ≤ '9')
    (hst : ∀ c ∈ st, allowedChar c = true) :
    ∀ c ∈ ('m' :: 'p' :: 'x' :: '_' :: ts) ++ '.' :: lastDotComp st,
      allowedChar c = true := by
  intro c hc
  simp only [List.mem_append, List.mem_cons] at hc
  rcases hc with (h | h | h | h | h) | h | h
  · subst h; decide
  · subst h; decide
  · subst h; decide
  · subst h; decide
  · exact allowedChar_of_digit (hts c h)
  · subst h; decide
  · exact hst c (mem_lastDotComp h)

/-- C3 counterexample: sanitization does not preserve the original file
extension; for input `photo.png#` the `#` of the extension is stripped. -/
theorem sanitize_ext_counterexample :
    sanitizeFilename "0" "photo.png#" = "photo.png" ∧
    String.mk (splitextExtChars ("photo.png#" : String).data) = ".png#" ∧
    String.mk (splitextExtChars ("photo.png" : String).data) = ".png" ∧
    (".png" : String) ≠ ".png#" := by decide

/-- C3 (amended): for every source filename the sanitized name is non-empty,
matches `^[a-z0-9_.]+$`, and starts with an alphanumeric character; the
claim's own example keeps its extension only up to lower-casing
(`.PNG` becomes `.png`); and when the stripped name is empty or does not
start with an alphanumeric, the synthesized name is the timestamp plus the
final dot-component of the stripped name (not of the original name). -/
theorem sanitize_filename_amended (ts name : String)
    (hts : ∀ c ∈ ts.data, '0' ≤ c ∧ c ≤ '9') :
    (sanitizeFilename ts name).data ≠ [] ∧
    (∀ c ∈ (sanitizeFilename ts name).data, allowedChar c = true) ∧
    isAlnumAscii ((sanitizeFilename ts name).data.headD '.') = true ∧
    sanitizeFilename ts "My Photo #1.PNG" = "my_photo_1.png" ∧
    ((strippedChars name.data = [] ∨
        isAlnumAscii ((strippedChars name.data).headD '.') = false) →
      sanitizeFilename ts name =
        String.mk (('m' :: 'p' :: 'x' :: '_' :: ts.data) ++
          '.' :: lastDotComp (strippedChars name.data))) := by
  refine ⟨?_, ?_, ?_, ?_, ?_⟩
  case _ =>
    cases hst : strippedChars name.data with
    | nil => simp [sanitizeFilename, hst]
    | cons c rest =>
      by_cases ha : isAlnumAscii c = true
      · simp [sanitizeFilename, hst, ha]
      · simp [sanitizeFilename, hst, ha]
  case _ =>
    cases hst : strippedChars name.data with
    | nil =>
      intro c hc
      simp only [sanitizeFilename, hst] at hc
      exact fallback_allowed ts.data [] hts (by simp) c hc
    | cons c0 rest =>
      intro c hc
      by_cases ha : isAlnumAscii c0 = true
      · simp only [sanitizeFilename, hst, ha, if_true] at hc
        exact mem_strippedChars_allowed (hst ▸ hc)
      · simp only [sanitizeFilename, hst, ha, if_false] at hc
        refine fallback_allowed ts.data (c0 :: rest) hts ?_ c hc
        intro d hd
        exact mem_strippedChars_allowed (hst ▸ hd)
  case _ =>
    cases hst : strippedChars name.data with
    | nil =>
      simp [sanitizeFilename, hst]
      decide
    | cons c rest =>
      by_cases ha : isAlnumAscii c = true
      · simp [sanitizeFilename, hst, ha]
      · simp [sanitizeFilename, hst, ha]
        decide
  case _ => rfl
  case _ =>
    intro hfall
    cases hst : strippedChars name.data with
    | nil => simp [sanitizeFilename, hst]
    | cons c rest =>
      rcases hfall with hnil | hhead
      · rw [hst] at hnil; exact absurd hnil (by simp)
      · rw [hst] at hhead
        simp only [List.headD_cons] at hhead
        simp [sanitizeFilename, hst, hhead]

/-- Witness for C3 (amended) at the claim's own example input. -/
theorem sanitize_filename_amended_witness :
    (∀ c ∈ ("1700000000" : String).data, '0' ≤ c ∧ c ≤ '9') ∧
    sanitizeFilename "1700000000" "My Photo #1.PNG" = "my_photo_1.png" ∧
    (sanitizeFilename "1700000000" "My Photo #1.PNG").data ≠ [] :=
  ⟨by decide,
   (sanitize_filename_amended "1700000000" "My Photo #1.PNG" (by decide)).2.2.2.1,
   (sanitize_filename_amended "1700000000" "My Photo #1.PNG" (by decide)).1⟩

/-! ### C4: the model-phase progress mapping at raw progress 1/2 -/

/-- C4: during model-phase polling, a raw remote progress of `1/2` yields
`progress = 62` in a direct image-to-3D run (asset id set, no image id)
and `progress = 70` in a text-to-image-to-3D run (image id set). -/
theorem model_progress_half_maps (e1 e2 : PollEnv) (s1 s2 : GenStatus)
    (r1 r2 : StatusResponse)
    (ha1 : s1.active = true) (ht1 : e1.isTimer = true)
    (he1 : 3 ≤ e1.now - s1.last_poll_time)
    (hs1 : s1.current_step = "model") (hm1 : optTruthy s1.model_request_id = true)
    (hw1 : optTruthy s1.asset_request_id = true)
    (hw1b : optTruthy s1.image_request_id = false)
    (hr1 : e1.retrieveResult = Except.ok r1)
    (hp1 : r1.progressVal = ProgVal.val (1/2))
    (hc1 : r1.status ≠ "complete") (hf1 : r1.status ≠ "failed")
    (ha2 : s2.active = true) (ht2 : e2.isTimer = true)
    (he2 : 3 ≤ e2.now - s2.last_poll_time)
    (hs2 : s2.current_step = "model") (hm2 : optTruthy s2.model_request_id = true)
    (hw2 : optTruthy s2.image_request_id = true)
    (hr2 : e2.retrieveResult = Except.ok r2)
    (hp2 : r2.progressVal = ProgVal.val (1/2))
    (hc2 : r2.status ≠ "complete") (hf2 : r2.status ≠ "failed") :
    (pollTick e1 s1).1.progress = 62 ∧ (pollTick e2 s2).1.progress = 70 := by
  constructor
  · simp [pollTick, checkModelStatus, modelProgressApply, ha1, ht1, he1, hs1,
      hm1, hw1, hw1b, hr1, hp1, hc1, hf1]
    norm_num [pyMinInt, pyInt, pyMin2, Rat.floor]
  · simp [pollTick, checkModelStatus, modelProgressApply, ha2, ht2, he2, hs2,
      hm2, hw2, hr2, hp2, hc2, hf2]
    norm_num [pyMinInt, pyInt, pyMin2, Rat.floor]

/-- Witness for C4 at concrete direct-workflow and text-workflow states. -/
theorem model_progress_half_maps_witness :
    (sampleModelState none).active = true ∧
    (sampleModelState (some "rid")).active = true ∧
    (pollTick (samplePollEnv (Except.ok ⟨"processing", ProgVal.val (1/2), [], none⟩))
        (sampleModelState none)).1.progress = 62 ∧
    (pollTick (samplePollEnv (Except.ok ⟨"processing", ProgVal.val (1/2), [], none⟩))
        (sampleModelState (some "rid"))).1.progress = 70 := by
  refine ⟨rfl, rfl, ?_, ?_⟩
  · exact (model_progress_half_maps
      (samplePollEnv (Except.ok ⟨"processing", ProgVal.val (1/2), [], none⟩))
      (samplePollEnv (Except.ok ⟨"processing", ProgVal.val (1/2), [], none⟩))
      (sampleModelState none) (sampleModelState (some "rid"))
      ⟨"processing", ProgVal.val (1/2), [], none⟩
      ⟨"processing", ProgVal.val (1/2), [], none⟩
      rfl rfl (by decide) rfl (by decide) (by decide) rfl rfl rfl
      (by decide) (by decide)
      rfl rfl (by decide) rfl (by decide) (by decide) rfl rfl
      (by decide) (by decide)).1
  · exact (model_progress_half_maps
      (samplePollEnv (Except.ok ⟨"processing", ProgVal.val (1/2), [], none⟩))
      (samplePollEnv (Except.ok ⟨"processing", ProgVal.val (1/2), [], none⟩))
      (sampleModelState none) (sampleModelState (some "rid"))
      ⟨"processing", ProgVal.val (1/2), [], none⟩
      ⟨"processing", ProgVal.val (1/2), [], none⟩
      rfl rfl (by decide) rfl (by decide) (by decide) rfl rfl rfl
      (by decide) (by decide)
      rfl rfl (by decide) rfl (by decide) (by decide) rfl rfl
      (by decide) (by decide)).2

/-! ### C5: the progress mapping has no lower clamp (code bug) -/

/-- C5 (code bug): the source caps the raw remote progress only from above
(`min(1.0, ...)`), despite its own comment "Ensure it's between 0 and 1";
a raw progress of `-1` during a direct image-to-3D model poll yields
`progress = 10`, outside the reserved 45-80 range the claim states. -/
theorem model_progress_negative_escapes_range :
    (pollTick (samplePollEnv (Except.ok ⟨"processing", ProgVal.val (-1), [], none⟩))
        (sampleModelState none)).1.progress = 10 ∧
    ¬ (45 ≤ (pollTick (samplePollEnv
        (Except.ok ⟨"processing", ProgVal.val (-1), [], none⟩))
        (sampleModelState none)).1.progress) := by
  have h : (pollTick (samplePollEnv
      (Except.ok ⟨"processing", ProgVal.val (-1), [], none⟩))
      (sampleModelState none)).1.progress = 10 := by
    simp [pollTick, checkModelStatus, modelProgressApply, samplePollEnv,
      sampleModelState, initStatus, optTruthy, tickText, hasSubChars,
      startsWithChars]
    norm_num [pyMinInt, pyInt, pyMin2, Rat.floor, Rat.ceil]
  exact ⟨h, by rw [h]; decide⟩

/-! ### C6: a failed status response terminates the run -/

theorem pollTick_inactive (e : PollEnv) (s : GenStatus) (h : s.active = false) :
    pollTick e s = (s, OpResult.cancelled, []) := by
  unfold pollTick
  simp [h]

/-- C6: whenever a poll tick's status retrieve raises or reports
`"failed"` — at the image phase or at the model phase — that same tick
sets `active := false` and a non-empty error text, and every subsequent
tick terminates with a cancelled result without issuing a remote call. -/
theorem poll_failed_terminal (e e2 : PollEnv) (s : GenStatus)
    (hact : s.active = true) (htimer : e.isTimer = true)
    (helapsed : 3 ≤ e.now - s.last_poll_time)
    (hfail : failedOrErr e.retrieveResult = true)
    (hstep : (s.current_step = "image" ∧ optTruthy s.image_request_id = true) ∨
      (s.current_step = "model" ∧ optTruthy s.model_request_id = true)) :
    (pollTick e s).1.active = false ∧
    (pollTick e s).1.error ≠ "" ∧
    pollTick e2 (pollTick e s).1 = ((pollTick e s).1, OpResult.cancelled, []) := by
  have key : (pollTick e s).1.active = false ∧ (pollTick e s).1.error ≠ "" := by
    rcases hstep with ⟨hstep, hid⟩ | ⟨hstep, hid⟩
    · cases hr : e.retrieveResult with
      | error msg =>
        simp [pollTick, checkImageStatus, hact, htimer, helapsed, hstep, hid, hr,
          failState]
        exact str_append_ne_empty _ _ (by decide)
      | ok r =>
        have hf : r.status = "failed" := by simpa [failedOrErr, hr] using hfail
        simp [pollTick, checkImageStatus, hact, htimer, helapsed, hstep, hid, hr,
          hf, failState]
    · cases hr : e.retrieveResult with
      | error msg =>
        simp [pollTick, checkModelStatus, hact, htimer, helapsed, hstep, hid, hr,
          failState]
        exact str_append_ne_empty _ _ (by decide)
      | ok r =>
        have hf : r.status = "failed" := by simpa [failedOrErr, hr] using hfail
        simp [pollTick, checkModelStatus, hact, htimer, helapsed, hstep, hid, hr,
          hf, failState]
  exact ⟨key.1, key.2, pollTick_inactive e2 _ key.1⟩

/-- Witness for C6 at a concrete image-phase state with a failed response. -/
theorem poll_failed_terminal_witness :
    sampleImageState.active = true ∧
    failedOrErr (Except.ok (⟨"failed", ProgVal.absent, [], none⟩ : StatusResponse)) = true ∧
    (pollTick (samplePollEnv (Except.ok ⟨"failed", ProgVal.absent, [], none⟩))
        sampleImageState).1.active = false ∧
    (pollTick (samplePollEnv (Except.ok ⟨"failed", ProgVal.absent, [], none⟩))
        sampleImageState).1.error ≠ "" ∧
    pollTick (samplePollEnv (Except.ok ⟨"failed", ProgVal.absent, [], none⟩))
        (pollTick (samplePollEnv (Except.ok ⟨"failed", ProgVal.absent, [], none⟩))
          sampleImageState).1 =
      ((pollTick (samplePollEnv (Except.ok ⟨"failed", ProgVal.absent, [], none⟩))
          sampleImageState).1, OpResult.cancelled, []) := by
  refine ⟨rfl, rfl, ?_, ?_, ?_⟩
  · exact (poll_failed_terminal
      (samplePollEnv (Except.ok ⟨"failed", ProgVal.absent, [], none⟩))
      (samplePollEnv (Except.ok ⟨"failed", ProgVal.absent, [], none⟩))
      sampleImageState rfl rfl (by decide) rfl (Or.inl ⟨rfl, by decide⟩)).1
  · exact (poll_failed_terminal
      (samplePollEnv (Except.ok ⟨"failed", ProgVal.absent, [], none⟩))
      (samplePollEnv (Except.ok ⟨"failed", ProgVal.absent, [], none⟩))
      sampleImageState rfl rfl (by decide) rfl (Or.inl ⟨rfl, by decide⟩)).2.1
  · exact (poll_failed_terminal
      (samplePollEnv (Except.ok ⟨"failed", ProgVal.absent, [], none⟩))
      (samplePollEnv (Except.ok ⟨"failed", ProgVal.absent, [], none⟩))
      sampleImageState rfl rfl (by decide) rfl (Or.inl ⟨rfl, by decide⟩)).2.2

/-! ### C9: a successful download imports the thread's file and finishes -/

theorem str_append_ne_empty_right (a b : String) (h : b ≠ "") : a ++ b ≠ "" := by
  intro hc
  apply h
  have hl := congrArg String.length hc
  rw [String.length_append] at hl
  have he : ("" : String).length = 0 := rfl
  have hb : b.length = b.data.length := rfl
  have h0 : b.data.length = 0 := by omega
  exact String.ext (by simpa using List.length_eq_zero.mp h0)

/-- C9: when the background model download succeeds and the host glTF
importer is available, the modal tick invokes the import with exactly the
local path the download thread wrote into `model_path`, and the run
terminates finished with `progress = 100`, `active = false`, and an
unchanged empty error text. -/
theorem download_success_imports_thread_path
    (tmpDir : String) (t : Nat) (s s1 : GenStatus) (fl : DlThreadResult)
    (hrun : downloadThreadRun (Except.ok ()) tmpDir s = (s1, fl))
    (herr : s.error = "") :
    s1.model_path = some (tmpDir ++ "mpx_generated_model.glb") ∧
    (downloadModalTick ⟨true, fl.downloadCompleted, fl.downloadError,
        fl.modelDownloaded, fl.glbPath, true, Except.ok (), t⟩ s1).2.2 =
      some (tmpDir ++ "mpx_generated_model.glb") ∧
    (downloadModalTick ⟨true, fl.downloadCompleted, fl.downloadError,
        fl.modelDownloaded, fl.glbPath, true, Except.ok (), t⟩ s1).1.progress = 100 ∧
    (downloadModalTick ⟨true, fl.downloadCompleted, fl.downloadError,
        fl.modelDownloaded, fl.glbPath, true, Except.ok (), t⟩ s1).1.active = false ∧
    (downloadModalTick ⟨true, fl.downloadCompleted, fl.downloadError,
        fl.modelDownloaded, fl.glbPath, true, Except.ok (), t⟩ s1).1.error = "" ∧
    (downloadModalTick ⟨true, fl.downloadCompleted, fl.downloadError,
        fl.modelDownloaded, fl.glbPath, true, Except.ok (), t⟩ s1).2.1 =
      OpResult.finished := by
  simp only [downloadThreadRun, Prod.mk.injEq] at hrun
  obtain ⟨h1, h2⟩ := hrun
  subst h1
  subst h2
  have hp : tmpDir ++ "mpx_generated_model.glb" ≠ "" :=
    str_append_ne_empty_right _ _ (by decide)
  simp [downloadModalTick, optTruthy, hp, herr]

/-- Witness for C9 at a concrete temp directory and the initial state. -/
theorem download_success_imports_thread_path_witness :
    downloadThreadRun (Except.ok ()) "/tmp/" initStatus =
      ({ initStatus with model_path := some ("/tmp/" ++ "mpx_generated_model.glb") },
       ⟨true, true, none, some ("/tmp/" ++ "mpx_generated_model.glb")⟩) ∧
    initStatus.error = "" ∧
    ({ initStatus with
        model_path := some ("/tmp/" ++ "mpx_generated_model.glb") } : GenStatus).model_path =
      some ("/tmp/" ++ "mpx_generated_model.glb") ∧
    (downloadModalTick ⟨true, true, none, true,
        some ("/tmp/" ++ "mpx_generated_model.glb"), true, Except.ok (), 7⟩
        { initStatus with
          model_path := some ("/tmp/" ++ "mpx_generated_model.glb") }).2.2 =
      some ("/tmp/" ++ "mpx_generated_model.glb") ∧
    (downloadModalTick ⟨true, true, none, true,
        some ("/tmp/" ++ "mpx_generated_model.glb"), true, Except.ok (), 7⟩
        { initStatus with
          model_path := some ("/tmp/" ++ "mpx_generated_model.glb") }).1.progress = 100 ∧
    (downloadModalTick ⟨true, true, none, true,
        some ("/tmp/" ++ "mpx_generated_model.glb"), true, Except.ok (), 7⟩
        { initStatus with
          model_path := some ("/tmp/" ++ "mpx_generated_model.glb") }).1.active = false := by
  have h := download_success_imports_thread_path "/tmp/" 7 initStatus
    { initStatus with model_path := some ("/tmp/" ++ "mpx_generated_model.glb") }
    ⟨true, true, none, some ("/tmp/" ++ "mpx_generated_model.glb")⟩ (by rfl) rfl
  exact ⟨by rfl, rfl, h.1, h.2.1, h.2.2.1, h.2.2.2.1⟩

/-! ### C8: terminal-on-error invariant over all reachable states -/

theorem errInv_failState (m : String) (s : GenStatus) : ErrInv (failState m s) := by
  intro _
  rfl

theorem errInv_cancel (s : GenStatus) (h : ErrInv s) : ErrInv (cancelExecute s).1 := by
  unfold ErrInv at h ⊢
  unfold cancelExecute
  split <;> simp_all

theorem errInv_startText (p : GenParams) (e : GenEnv) (s : GenStatus) (h : ErrInv s) :
    ErrInv (startTextBased p e s).1 := by
  unfold ErrInv at h ⊢
  unfold startTextBased
  dsimp only
  repeat' split
  all_goals first
    | exact h
    | (intro _; rfl)

theorem errInv_startImage (p : GenParams) (e : GenEnv) (s : GenStatus) (h : ErrInv s) :
    ErrInv (startImageBased p e s).1 := by
  unfold ErrInv at h ⊢
  unfold startImageBased
  dsimp only
  repeat' split
  all_goals first
    | exact h
    | (intro _; rfl)

theorem errInv_generate (p : GenParams) (e : GenEnv) (s : GenStatus) (h : ErrInv s) :
    ErrInv (generateExecute p e s).1 := by
  unfold ErrInv at h ⊢
  unfold generateExecute
  dsimp only
  repeat' split
  all_goals first
    | exact h
    | (intro _; rfl)
    | exact errInv_startText p e _ (fun he => absurd rfl he)
    | exact errInv_startImage p e _ (fun he => absurd rfl he)

theorem errInv_procImg (e : ProcessEnv) (s : GenStatus) (h : ErrInv s) :
    ErrInv (processImageExecute e s).1 := by
  unfold ErrInv at h ⊢
  unfold processImageExecute
  dsimp only
  repeat' split
  all_goals first
    | exact h
    | (intro _; rfl)

theorem errInv_dlStart (e : DlStartEnv) (s : GenStatus) (h : ErrInv s) :
    ErrInv (downloadExecute e s).1 := by
  unfold ErrInv at h ⊢
  unfold downloadExecute
  repeat' split <;> simp_all [failState]

theorem errInv_modelProgressApply (pv : ProgVal) (s : GenStatus) (h : ErrInv s) :
    ErrInv (modelProgressApply pv s) := by
  unfold ErrInv at h ⊢
  unfold modelProgressApply
  repeat' split <;> simp_all

theorem errInv_checkImage (e : PollEnv) (s : GenStatus) (h : ErrInv s) :
    ErrInv (checkImageStatus e s).1 := by
  unfold ErrInv at h ⊢
  unfold checkImageStatus
  split
  · exact errInv_failState _ _
  · split
    · exact errInv_procImg _ _ h
    · split
      · exact errInv_failState _ _
      · exact h

theorem errInv_checkModel (e : PollEnv) (s : GenStatus) (h : ErrInv s) :
    ErrInv (checkModelStatus e s).1 := by
  unfold ErrInv at h ⊢
  unfold checkModelStatus
  split
  · exact errInv_failState _ _
  · split
    · split
      · exact errInv_dlStart _ _ (errInv_modelProgressApply _ _ h)
      · exact errInv_failState _ _
    · split
      · exact errInv_failState _ _
      · exact errInv_modelProgressApply _ _ h

theorem errInv_pollTick (e : PollEnv) (s : GenStatus) (h : ErrInv s) :
    ErrInv (pollTick e s).1 := by
  unfold ErrInv at h ⊢
  unfold pollTick
  dsimp only
  repeat' split
  all_goals first
    | exact h
    | exact errInv_checkImage _ _ h
    | exact errInv_checkModel _ _ h

theorem errInv_dlThread (fetch : Except String Unit) (tmpDir : String) (s : GenStatus)
    (h : ErrInv s) : ErrInv (downloadThreadRun fetch tmpDir s).1 := by
  unfold ErrInv at h ⊢
  unfold downloadThreadRun
  split <;> simp_all

theorem errInv_dlModal (e : DlModalEnv) (s : GenStatus) (h : ErrInv s) :
    ErrInv (downloadModalTick e s).1 := by
  unfold ErrInv at h ⊢
  unfold downloadModalTick
  dsimp only
  repeat' split
  all_goals first
    | exact h
    | (intro _; rfl)

/-- C8: in every state reachable by the controller, poller, image-processing
and downloader operations (and cancel), a non-empty error text implies the
run is inactive. -/
theorem error_implies_inactive_reachable (s : GenStatus) (hr : Reachable s)
    (he : s.error ≠ "") : s.active = false := by
  induction hr with
  | init => exact absurd rfl he
  | generate p e s0 _ ih => exact errInv_generate p e s0 ih he
  | cancel s0 _ ih => exact errInv_cancel s0 ih he
  | poll e s0 _ ih => exact errInv_pollTick e s0 ih he
  | procImg e s0 _ ih => exact errInv_procImg e s0 ih he
  | dlStart e s0 _ ih => exact errInv_dlStart e s0 ih he
  | dlThread fetch tmpDir s0 _ ih => exact errInv_dlThread fetch tmpDir s0 ih he
  | dlModal e s0 _ ih => exact errInv_dlModal e s0 ih he

/-- Witness for C8 at a concrete reachable error state: a start attempt whose
client construction raised. -/
theorem error_implies_inactive_reachable_witness :
    (generateExecute (⟨"a cat", 4, 1024, 1, false, ""⟩ : GenParams) sampleFailGenEnv
        initStatus).1.error ≠ "" ∧
    (generateExecute (⟨"a cat", 4, 1024, 1, false, ""⟩ : GenParams) sampleFailGenEnv
        initStatus).1.active = false :=
  ⟨by decide,
   error_implies_inactive_reachable _
     (Reachable.generate (⟨"a cat", 4, 1024, 1, false, ""⟩ : GenParams) sampleFailGenEnv
       initStatus Reachable.init) (by decide)⟩
